import Mathlib

/-!
Shallow embedding of the Ekalavya backend (src/index.js), an Express +
Supabase identity service.  The users table is modelled as a list of rows;
PostgREST's `.single()` is modelled as `selectSingle` (exactly one matching
row, else an error), `.update(...).eq("email", e)` as `updateByEmail`.
`Math.random()` is abstracted as a rational number in `[0, 1)` supplied to
each handler that generates an OTP; `new Date()` / timestamps are abstracted
as natural numbers supplied by the caller.  `jwt.sign(payload, secret,
{expiresIn: "1h"})` is modelled as a `SessionToken` record holding exactly
the signed payload fields and the validity window in seconds; the signing
secret and signature bytes are opaque externals.  Outbound mail is recorded
as a list of `Mail` values (recipient and subject); in the resend-otp
handler, where the source wraps `sendEmail` in try/catch, delivery success
is a boolean parameter.  Pass-through profile columns that no handler ever
reads (phone, council_id, dob, address, gender, nationality, aadhaar,
passport, pan_card) are omitted from the row model.
-/

namespace Ekalavya

/-- One entry of the `login_records` JSONB array: `{action, time}`. -/
structure LoginRecord where
  action : String
  time : Nat
  deriving DecidableEq, Repr

/-- A row of the `users` table (behaviorally relevant columns only). -/
structure User where
  id : String
  name : String
  email : String
  user_type : String
  otp : Option String
  otp_verified : Bool
  email_verified : Bool
  approved_by_admin : Bool
  last_login_at : Option Nat
  login_records : List LoginRecord
  deriving DecidableEq, Repr

/-- The users table. -/
abbrev Db := List User

/-- Predicate for `.eq("email", e)`. -/
def byEmail (e : String) (u : User) : Bool :=
  u.email == e

/-- Predicate for `.eq("email", e).eq("otp", c)`. -/
def byEmailOtp (e c : String) (u : User) : Bool :=
  byEmail e u && u.otp == some c

/-- PostgREST `.select(...).eq(...).single()`: succeeds iff exactly one row
matches; zero rows or several rows give an error (`none`). -/
def selectSingle (p : User → Bool) (db : Db) : Option User :=
  match db.filter p with
  | [u] => some u
  | _ => none

/-- `.update(...).eq("email", e)`: applies `g` to every row whose email is
`e`, leaving other rows unchanged. -/
def updateByEmail (e : String) (g : User → User) (db : Db) : Db :=
  db.map fun u => if u.email == e then g u else u

/-- `Math.floor(100000 + Math.random() * 900000)` with the random draw
`r ∈ [0,1)` passed in explicitly, as a natural number. -/
def genOtpNat (r : ℚ) : Nat :=
  (⌊(100000 : ℚ) + r * 900000⌋).toNat

/-- JavaScript `Number.prototype.toString()` for a natural number: its
decimal digit string. -/
def natDecimalRepr (n : Nat) : String :=
  if n = 0 then "0" else String.mk ((Nat.digits 10 n).reverse.map Nat.digitChar)

/-- `Math.floor(100000 + Math.random() * 900000).toString()`. -/
def genOtp (r : ℚ) : String :=
  natDecimalRepr (genOtpNat r)

/-- The `jwt.sign({id, email, user_type}, secret, {expiresIn: "1h"})` call:
the token is bound to exactly these payload fields and carries a validity
window in seconds ("1h" = 3600). -/
structure SessionToken where
  id : String
  email : String
  user_type : String
  expiresInSeconds : Nat
  deriving DecidableEq, Repr

/-- A JSON response body: `{message}`, `{error}`, or the verify-login
success payload `{id, name, email, user_type, token}`. -/
inductive Body where
  | message (s : String)
  | err (s : String)
  | loginSuccess (id name email user_type : String) (token : SessionToken)
  deriving DecidableEq, Repr

/-- An HTTP response: status code and JSON body. -/
structure Resp where
  status : Nat
  body : Body
  deriving DecidableEq, Repr

/-- An outbound email, recorded as its `to` address and subject. -/
structure Mail where
  recipient : String
  subject : String
  deriving DecidableEq, Repr

/-- Result of one request: the response, the users table afterwards, and
the emails delivered. -/
structure Outcome where
  resp : Resp
  db : Db
  mails : List Mail
  deriving DecidableEq, Repr

/-- Request body of POST /register (behaviorally relevant fields; `none`
models an absent field).  `user_type` falls back to the schema default
`'intern'` when absent. -/
structure RegisterInput where
  name : String
  email : Option String
  user_type : Option String
  deriving DecidableEq, Repr

/-- POST /register: inserts a row (no input validation in the handler; the
schema's NOT NULL and UNIQUE constraints on `email` are the only checks,
surfaced as a 400 with the database error message), then sends the
registration OTP email.  `newId` stands for the database-generated UUID. -/
def register (db : Db) (inp : RegisterInput) (r : ℚ) (newId : String) : Outcome :=
  match inp.email with
  | none =>
      ⟨⟨400, .err "null value in column email violates not-null constraint"⟩, db, []⟩
  | some e =>
      if db.any (byEmail e) then
        ⟨⟨400, .err "duplicate key value violates unique constraint"⟩, db, []⟩
      else
        ⟨⟨200, .message "Registered successfully. OTP sent to email."⟩,
          db ++ [⟨newId, inp.name, e, inp.user_type.getD "intern", some (genOtp r),
                  false, false, false, none, []⟩],
          [⟨e, "Verify Your Registration"⟩]⟩

/-- POST /verify-otp: fetches the single row matching both email and otp;
any failure (including no such user at all) is 400 "Invalid OTP"; on
success sets `otp_verified` and `email_verified` true (the stored otp is
left in place, no email is sent by this handler). -/
def verifyOtp (db : Db) (e c : String) : Outcome :=
  match selectSingle (byEmailOtp e c) db with
  | none => ⟨⟨400, .err "Invalid OTP"⟩, db, []⟩
  | some _ =>
      ⟨⟨200, .message "Email verified successfully."⟩,
        updateByEmail e (fun u => { u with otp_verified := true, email_verified := true }) db,
        []⟩

/-- POST /login: 400 if the user is not found, 403 if `email_verified` is
false, then 403 if `approved_by_admin` is false; otherwise stores a fresh
OTP and emails it. -/
def login (db : Db) (e : String) (r : ℚ) : Outcome :=
  match selectSingle (byEmail e) db with
  | none => ⟨⟨400, .err "User not found"⟩, db, []⟩
  | some user =>
      if user.email_verified = false then
        ⟨⟨403, .err "Email not verified"⟩, db, []⟩
      else if user.approved_by_admin = false then
        ⟨⟨403, .err "Not approved by admin"⟩, db, []⟩
      else
        ⟨⟨200, .message "OTP sent for login."⟩,
          updateByEmail e (fun u => { u with otp := some (genOtp r) }) db,
          [⟨e, "Login OTP"⟩]⟩

/-- POST /verify-login: fetches the single row matching both email and otp
(no check of `email_verified` or `approved_by_admin`); on success signs a
1-hour token over `{id, email, user_type}`, sets `last_login_at` and
appends a login record, sends the notification, and returns the identity
payload with the token. -/
def verifyLogin (db : Db) (e c : String) (now : Nat) : Outcome :=
  match selectSingle (byEmailOtp e c) db with
  | none => ⟨⟨400, .err "Invalid OTP"⟩, db, []⟩
  | some user =>
      ⟨⟨200, .loginSuccess user.id user.name user.email user.user_type
          ⟨user.id, user.email, user.user_type, 3600⟩⟩,
        updateByEmail e (fun u =>
          { u with last_login_at := some now,
                   login_records := user.login_records ++ [⟨"login", now⟩] }) db,
        [⟨e, "Login Successful"⟩]⟩

/-- POST /logout: 400 if the user is not found; otherwise appends a logout
record and sends the notification. -/
def logout (db : Db) (e : String) (now : Nat) : Outcome :=
  match selectSingle (byEmail e) db with
  | none => ⟨⟨400, .err "User not found"⟩, db, []⟩
  | some user =>
      ⟨⟨200, .message "Logged out successfully."⟩,
        updateByEmail e (fun u =>
          { u with login_records := user.login_records ++ [⟨"logout", now⟩] }) db,
        [⟨e, "Logout Notification"⟩]⟩

/-- POST /resend-otp: 400 if the email field is missing, 404 if no user,
400 if `otp_verified` is already true; otherwise persists a fresh OTP and
only then tries to send it — a send failure (`sendOk = false`, the
try/catch in the source) is a 500 "Failed to send OTP email" and the
already-written OTP stays.  (The repository update itself is modelled as
always succeeding; the source's 500 "Failed to update OTP" branch is a
storage failure outside this model.) -/
def resendOtp (db : Db) (email : Option String) (r : ℚ) (sendOk : Bool) : Outcome :=
  match email with
  | none => ⟨⟨400, .err "Email is required"⟩, db, []⟩
  | some e =>
      match selectSingle (byEmail e) db with
      | none => ⟨⟨404, .err "User with this email not found"⟩, db, []⟩
      | some user =>
          if user.otp_verified then
            ⟨⟨400, .err "Email already verified"⟩, db, []⟩
          else
            let db2 := updateByEmail e (fun u => { u with otp := some (genOtp r) }) db
            if sendOk then
              ⟨⟨200, .message "OTP resent successfully"⟩, db2,
                [⟨e, "Resend OTP - Email Verification"⟩]⟩
            else
              ⟨⟨500, .err "Failed to send OTP email"⟩, db2, []⟩

/-! Helper lemmas about `selectSingle` and `updateByEmail`. -/

lemma selectSingle_eq_some_iff (p : User → Bool) (db : Db) (u : User) :
    selectSingle p db = some u ↔ db.filter p = [u] := by
  unfold selectSingle
  rcases hf : db.filter p with _ | ⟨a, _ | ⟨b, t⟩⟩ <;> simp

lemma pred_of_selectSingle {p : User → Bool} {db : Db} {u : User}
    (h : selectSingle p db = some u) : p u = true := by
  rw [selectSingle_eq_some_iff] at h
  have hm : u ∈ db.filter p := by rw [h]; exact List.mem_singleton.mpr rfl
  exact (List.mem_filter.mp hm).2

lemma filter_updateByEmail (p : User → Bool) (e : String) (g : User → User) (db : Db)
    (hg : ∀ w, p (g w) = p w) :
    (updateByEmail e g db).filter p =
      (db.filter p).map (fun w => if w.email == e then g w else w) := by
  unfold updateByEmail
  rw [List.filter_map]
  congr 1
  apply List.filter_congr
  intro a _
  by_cases h : a.email = e
  · simp [h, hg]
  · simp [h]

lemma selectSingle_updateByEmail {p : User → Bool} {e : String} {g : User → User}
    {db : Db} {u : User}
    (h : selectSingle p db = some u) (hg : ∀ w, p (g w) = p w)
    (hu : (u.email == e) = true) :
    selectSingle p (updateByEmail e g db) = some (g u) := by
  rw [selectSingle_eq_some_iff] at h ⊢
  rw [filter_updateByEmail p e g db hg, h]
  have hue : u.email = e := by simpa using hu
  simp [hue]

lemma email_eq_of_byEmailOtp {e c : String} {u : User} (h : byEmailOtp e c u = true) :
    (u.email == e) = true := by
  unfold byEmailOtp at h
  exact (Bool.and_eq_true_iff.mp h).1

lemma otp_eq_of_byEmailOtp {e c : String} {u : User} (h : byEmailOtp e c u = true) :
    u.otp = some c := by
  unfold byEmailOtp at h
  have h2 := (Bool.and_eq_true_iff.mp h).2
  simpa using h2

lemma filter_byEmailOtp_eq (e c : String) (db : Db) :
    db.filter (byEmailOtp e c) = (db.filter (byEmail e)).filter (fun u => u.otp == some c) := by
  rw [List.filter_filter]
  apply List.filter_congr
  intro a _
  unfold byEmailOtp
  exact (Bool.and_comm _ _).symm

lemma selectSingle_none_of_filter_nil {p : User → Bool} {db : Db}
    (h : db.filter p = []) : selectSingle p db = none := by
  unfold selectSingle
  rw [h]

/-! Sample accounts used by the concrete witnesses. -/

/-- A freshly registered account: OTP outstanding, nothing verified. -/
def sampleUnverified : User :=
  ⟨"id1", "Asha", "a@x.com", "intern", some "123456", false, false, false, none, []⟩

/-- An email-verified but unapproved account. -/
def sampleVerified : User :=
  ⟨"id2", "Bela", "b@x.com", "intern", some "654321", false, true, false, none, []⟩

/-- A fully verified and approved account with one past login. -/
def sampleActive : User :=
  ⟨"id3", "Chandran", "c@x.com", "admin", some "111111", true, true, true, some 3,
    [⟨"login", 3⟩]⟩

/-- C1: ConfirmLogin (POST /verify-login) succeeds and returns a signed
session token whenever the supplied OTP exactly equals the stored OTP, with
no check of email_verified or approved_by_admin: an unverified, unapproved
account whose stored OTP matches the supplied code still obtains a token. -/
theorem confirmLogin_ignores_verification_flags (db : Db) (e c : String) (now : Nat)
    (u : User) (h : selectSingle (byEmailOtp e c) db = some u)
    (hv : u.email_verified = false) (ha : u.approved_by_admin = false) :
    (verifyLogin db e c now).resp =
      ⟨200, .loginSuccess u.id u.name u.email u.user_type
        ⟨u.id, u.email, u.user_type, 3600⟩⟩ := by
  unfold verifyLogin
  rw [h]

theorem confirmLogin_ignores_verification_flags_witness :
    selectSingle (byEmailOtp "a@x.com" "123456") [sampleUnverified] = some sampleUnverified
  ∧ sampleUnverified.email_verified = false
  ∧ sampleUnverified.approved_by_admin = false
  ∧ (verifyLogin [sampleUnverified] "a@x.com" "123456" 7).resp =
      ⟨200, .loginSuccess "id1" "Asha" "a@x.com" "intern"
        ⟨"id1", "a@x.com", "intern", 3600⟩⟩ :=
  ⟨by decide, rfl, rfl,
    confirmLogin_ignores_verification_flags [sampleUnverified] "a@x.com" "123456" 7
      sampleUnverified (by decide) rfl rfl⟩

/-- C2 (counterexample): with no account for the email at all, ConfirmRegistration
(POST /verify-otp) answers the very same 400 "Invalid OTP" response it gives for a
wrong OTP on an existing account — there is no distinct NotFound failure. -/
theorem verifyOtp_no_notfound_counterexample :
    verifyOtp [] "a@x.com" "123456" = ⟨⟨400, .err "Invalid OTP"⟩, [], []⟩
  ∧ verifyOtp [sampleUnverified] "a@x.com" "000000" =
      ⟨⟨400, .err "Invalid OTP"⟩, [sampleUnverified], []⟩ := by
  exact ⟨by decide, by decide⟩

/-- C2 (amended): ConfirmRegistration (POST /verify-otp) does not distinguish its
two failure causes: both when no account exists for the given email and when an
account exists but the supplied OTP does not exactly equal the stored OTP (raw
string compare, no normalization), it fails with the same 400 "Invalid OTP"
response, leaving the table unchanged. -/
theorem verifyOtp_uniform_failure (db : Db) (e c : String) :
    (db.filter (byEmail e) = [] →
      verifyOtp db e c = ⟨⟨400, .err "Invalid OTP"⟩, db, []⟩)
  ∧ (∀ u, selectSingle (byEmail e) db = some u → u.otp ≠ some c →
      verifyOtp db e c = ⟨⟨400, .err "Invalid OTP"⟩, db, []⟩) := by
  constructor
  · intro hnil
    have hf : db.filter (byEmailOtp e c) = [] := by
      rw [filter_byEmailOtp_eq, hnil]
      rfl
    unfold verifyOtp
    rw [selectSingle_none_of_filter_nil hf]
  · intro u hu hotp
    rw [selectSingle_eq_some_iff] at hu
    have hf : db.filter (byEmailOtp e c) = [] := by
      rw [filter_byEmailOtp_eq, hu]
      simp [hotp]
    unfold verifyOtp
    rw [selectSingle_none_of_filter_nil hf]

theorem verifyOtp_uniform_failure_witness :
    (List.filter (byEmail "z@x.com") [sampleUnverified] = []
      ∧ verifyOtp [sampleUnverified] "z@x.com" "123456" =
          ⟨⟨400, .err "Invalid OTP"⟩, [sampleUnverified], []⟩)
  ∧ (selectSingle (byEmail "a@x.com") [sampleUnverified] = some sampleUnverified
      ∧ sampleUnverified.otp ≠ some "000000"
      ∧ verifyOtp [sampleUnverified] "a@x.com" "000000" =
          ⟨⟨400, .err "Invalid OTP"⟩, [sampleUnverified], []⟩) :=
  ⟨⟨by decide,
    (verifyOtp_uniform_failure [sampleUnverified] "z@x.com" "123456").1 (by decide)⟩,
   ⟨by decide, by decide,
    (verifyOtp_uniform_failure [sampleUnverified] "a@x.com" "000000").2
      sampleUnverified (by decide) (by decide)⟩⟩

/-- C3: IssueLoginOtp (POST /login) fails with NotFound (400 "User not found")
when no account matches the email, with EmailNotVerified (403 "Email not
verified") when email_verified is false, and with NotApproved (403 "Not approved
by admin") when approved_by_admin is false; when both flags are false,
EmailNotVerified takes precedence (the checks run in that order). -/
theorem issueLoginOtp_failure_order (db : Db) (e : String) (r : ℚ) :
    (selectSingle (byEmail e) db = none →
      login db e r = ⟨⟨400, .err "User not found"⟩, db, []⟩)
  ∧ (∀ u, selectSingle (byEmail e) db = some u → u.email_verified = false →
      login db e r = ⟨⟨403, .err "Email not verified"⟩, db, []⟩)
  ∧ (∀ u, selectSingle (byEmail e) db = some u → u.email_verified = true →
      u.approved_by_admin = false →
      login db e r = ⟨⟨403, .err "Not approved by admin"⟩, db, []⟩)
  ∧ (∀ u, selectSingle (byEmail e) db = some u → u.email_verified = false →
      u.approved_by_admin = false →
      login db e r = ⟨⟨403, .err "Email not verified"⟩, db, []⟩) := by
  refine ⟨?_, ?_, ?_, ?_⟩
  · intro h
    unfold login
    rw [h]
  · intro u h hv
    unfold login
    rw [h]
    simp [hv]
  · intro u h hv ha
    unfold login
    rw [h]
    simp [hv, ha]
  · intro u h hv _
    unfold login
    rw [h]
    simp [hv]

theorem issueLoginOtp_failure_order_witness :
    (selectSingle (byEmail "z@x.com") ([] : Db) = none
      ∧ login [] "z@x.com" 0 = ⟨⟨400, .err "User not found"⟩, [], []⟩)
  ∧ (selectSingle (byEmail "a@x.com") [sampleUnverified] = some sampleUnverified
      ∧ sampleUnverified.email_verified = false
      ∧ login [sampleUnverified] "a@x.com" 0 =
          ⟨⟨403, .err "Email not verified"⟩, [sampleUnverified], []⟩)
  ∧ (selectSingle (byEmail "b@x.com") [sampleVerified] = some sampleVerified
      ∧ sampleVerified.email_verified = true
      ∧ sampleVerified.approved_by_admin = false
      ∧ login [sampleVerified] "b@x.com" 0 =
          ⟨⟨403, .err "Not approved by admin"⟩, [sampleVerified], []⟩)
  ∧ (sampleUnverified.email_verified = false
      ∧ sampleUnverified.approved_by_admin = false
      ∧ login [sampleUnverified] "a@x.com" 0 =
          ⟨⟨403, .err "Email not verified"⟩, [sampleUnverified], []⟩) :=
  ⟨⟨by decide, (issueLoginOtp_failure_order [] "z@x.com" 0).1 (by decide)⟩,
   ⟨by decide, rfl,
    (issueLoginOtp_failure_order [sampleUnverified] "a@x.com" 0).2.1
      sampleUnverified (by decide) rfl⟩,
   ⟨by decide, rfl, rfl,
    (issueLoginOtp_failure_order [sampleVerified] "b@x.com" 0).2.2.1
      sampleVerified (by decide) rfl rfl⟩,
   ⟨rfl, rfl,
    (issueLoginOtp_failure_order [sampleUnverified] "a@x.com" 0).2.2.2
      sampleUnverified (by decide) rfl rfl⟩⟩

lemma verifyOtp_resp_of_some {db : Db} {e c : String} {v : User}
    (h : selectSingle (byEmailOtp e c) db = some v) :
    (verifyOtp db e c).resp = ⟨200, .message "Email verified successfully."⟩ := by
  unfold verifyOtp
  rw [h]

/-- C4: a successful ConfirmRegistration (POST /verify-otp) sets
email_verified = true and otp_verified = true together and leaves the stored
OTP field unchanged (not cleared); consequently, calling it again with the
same valid OTP after success still succeeds. -/
theorem confirmRegistration_sets_flags_keeps_otp (db : Db) (e c : String) (u : User)
    (h : selectSingle (byEmailOtp e c) db = some u) :
    (verifyOtp db e c).resp = ⟨200, .message "Email verified successfully."⟩
  ∧ selectSingle (byEmailOtp e c) (verifyOtp db e c).db =
      some { u with otp_verified := true, email_verified := true }
  ∧ (verifyOtp (verifyOtp db e c).db e c).resp =
      ⟨200, .message "Email verified successfully."⟩ := by
  have hpred := pred_of_selectSingle h
  have hue := email_eq_of_byEmailOtp hpred
  have hg : ∀ w : User,
      byEmailOtp e c { w with otp_verified := true, email_verified := true } =
        byEmailOtp e c w := fun w => rfl
  have hdb : (verifyOtp db e c).db =
      updateByEmail e
        (fun w => { w with otp_verified := true, email_verified := true }) db := by
    unfold verifyOtp
    rw [h]
  have hsel : selectSingle (byEmailOtp e c) (verifyOtp db e c).db =
      some { u with otp_verified := true, email_verified := true } := by
    rw [hdb]
    exact selectSingle_updateByEmail h hg hue
  exact ⟨verifyOtp_resp_of_some h, hsel, verifyOtp_resp_of_some hsel⟩

theorem confirmRegistration_sets_flags_keeps_otp_witness :
    selectSingle (byEmailOtp "a@x.com" "123456") [sampleUnverified] = some sampleUnverified
  ∧ ((verifyOtp [sampleUnverified] "a@x.com" "123456").resp =
      ⟨200, .message "Email verified successfully."⟩
    ∧ selectSingle (byEmailOtp "a@x.com" "123456")
        (verifyOtp [sampleUnverified] "a@x.com" "123456").db =
        some ⟨"id1", "Asha", "a@x.com", "intern", some "123456", true, true, false, none, []⟩
    ∧ (verifyOtp (verifyOtp [sampleUnverified] "a@x.com" "123456").db
        "a@x.com" "123456").resp = ⟨200, .message "Email verified successfully."⟩) :=
  ⟨by decide,
    confirmRegistration_sets_flags_keeps_otp [sampleUnverified] "a@x.com" "123456"
      sampleUnverified (by decide)⟩

/-- C5: on a successful ConfirmLogin (POST /verify-login) the service updates
last_login_at to the current time, appends {action := "login", time := now} to
login_records, issues a session token bound to exactly {id, email, user_type}
with a one-hour (3600 s) validity window, and returns the account's public
identity fields (id, name, email, user_type) plus the token. -/
theorem confirmLogin_success_effects (db : Db) (e c : String) (now : Nat) (u : User)
    (h : selectSingle (byEmailOtp e c) db = some u) :
    verifyLogin db e c now =
      ⟨⟨200, .loginSuccess u.id u.name u.email u.user_type
          ⟨u.id, u.email, u.user_type, 3600⟩⟩,
        updateByEmail e (fun w =>
          { w with last_login_at := some now,
                   login_records := u.login_records ++ [⟨"login", now⟩] }) db,
        [⟨e, "Login Successful"⟩]⟩
  ∧ selectSingle (byEmailOtp e c) (verifyLogin db e c now).db =
      some { u with last_login_at := some now,
                    login_records := u.login_records ++ [⟨"login", now⟩] } := by
  have hpred := pred_of_selectSingle h
  have hue := email_eq_of_byEmailOtp hpred
  have hg : ∀ w : User,
      byEmailOtp e c
        { w with last_login_at := some now,
                 login_records := u.login_records ++ [⟨"login", now⟩] } =
        byEmailOtp e c w := fun w => rfl
  have h1 : verifyLogin db e c now =
      ⟨⟨200, .loginSuccess u.id u.name u.email u.user_type
          ⟨u.id, u.email, u.user_type, 3600⟩⟩,
        updateByEmail e (fun w =>
          { w with last_login_at := some now,
                   login_records := u.login_records ++ [⟨"login", now⟩] }) db,
        [⟨e, "Login Successful"⟩]⟩ := by
    unfold verifyLogin
    rw [h]
  refine ⟨h1, ?_⟩
  rw [h1]
  exact selectSingle_updateByEmail h hg hue

theorem confirmLogin_success_effects_witness :
    selectSingle (byEmailOtp "a@x.com" "123456") [sampleUnverified] = some sampleUnverified
  ∧ (verifyLogin [sampleUnverified] "a@x.com" "123456" 42 =
      ⟨⟨200, .loginSuccess "id1" "Asha" "a@x.com" "intern"
          ⟨"id1", "a@x.com", "intern", 3600⟩⟩,
        updateByEmail "a@x.com" (fun w =>
          { w with last_login_at := some 42,
                   login_records := sampleUnverified.login_records ++ [⟨"login", 42⟩] })
          [sampleUnverified],
        [⟨"a@x.com", "Login Successful"⟩]⟩
    ∧ selectSingle (byEmailOtp "a@x.com" "123456")
        (verifyLogin [sampleUnverified] "a@x.com" "123456" 42).db =
        some ⟨"id1", "Asha", "a@x.com", "intern", some "123456", false, false, false,
          some 42, [⟨"login", 42⟩]⟩) :=
  ⟨by decide,
    confirmLogin_success_effects [sampleUnverified] "a@x.com" "123456" 42
      sampleUnverified (by decide)⟩

/-- C6: login_records is append-only: a successful ConfirmLogin appends exactly
one {action := "login"} entry and a successful RecordLogout (POST /logout)
appends exactly one {action := "logout"} entry, so the list's length increases
by exactly one per successful call and all prior entries are preserved
unchanged in their original order. -/
theorem login_records_append_only (db : Db) (e c : String) (now : Nat) (u : User) :
    (selectSingle (byEmailOtp e c) db = some u →
      (verifyLogin db e c now).resp.status = 200
      ∧ ∃ v, selectSingle (byEmailOtp e c) (verifyLogin db e c now).db = some v
          ∧ v.login_records = u.login_records ++ [⟨"login", now⟩]
          ∧ v.login_records.length = u.login_records.length + 1
          ∧ v.login_records.take u.login_records.length = u.login_records)
  ∧ (selectSingle (byEmail e) db = some u →
      (logout db e now).resp.status = 200
      ∧ ∃ v, selectSingle (byEmail e) (logout db e now).db = some v
          ∧ v.login_records = u.login_records ++ [⟨"logout", now⟩]
          ∧ v.login_records.length = u.login_records.length + 1
          ∧ v.login_records.take u.login_records.length = u.login_records) := by
  constructor
  · intro h
    have hpred := pred_of_selectSingle h
    have hue := email_eq_of_byEmailOtp hpred
    have hg : ∀ w : User,
        byEmailOtp e c
          { w with last_login_at := some now,
                   login_records := u.login_records ++ [⟨"login", now⟩] } =
          byEmailOtp e c w := fun w => rfl
    have hdb : (verifyLogin db e c now).db =
        updateByEmail e (fun w =>
          { w with last_login_at := some now,
                   login_records := u.login_records ++ [⟨"login", now⟩] }) db := by
      unfold verifyLogin
      rw [h]
    have hst : (verifyLogin db e c now).resp.status = 200 := by
      unfold verifyLogin
      rw [h]
    refine ⟨hst,
      ⟨{ u with last_login_at := some now,
                login_records := u.login_records ++ [⟨"login", now⟩] }, ?_, rfl, ?_, ?_⟩⟩
    · rw [hdb]
      exact selectSingle_updateByEmail h hg hue
    · simp
    · exact List.take_left u.login_records [⟨"login", now⟩]
  · intro h
    have hue : (u.email == e) = true := pred_of_selectSingle h
    have hg : ∀ w : User,
        byEmail e { w with login_records := u.login_records ++ [⟨"logout", now⟩] } =
          byEmail e w := fun w => rfl
    have hdb : (logout db e now).db =
        updateByEmail e (fun w =>
          { w with login_records := u.login_records ++ [⟨"logout", now⟩] }) db := by
      unfold logout
      rw [h]
    have hst : (logout db e now).resp.status = 200 := by
      unfold logout
      rw [h]
    refine ⟨hst,
      ⟨{ u with login_records := u.login_records ++ [⟨"logout", now⟩] }, ?_, rfl, ?_, ?_⟩⟩
    · rw [hdb]
      exact selectSingle_updateByEmail h hg hue
    · simp
    · exact List.take_left u.login_records [⟨"logout", now⟩]

theorem login_records_append_only_witness :
    (selectSingle (byEmailOtp "c@x.com" "111111") [sampleActive] = some sampleActive
      ∧ ((verifyLogin [sampleActive] "c@x.com" "111111" 9).resp.status = 200
        ∧ ∃ v, selectSingle (byEmailOtp "c@x.com" "111111")
              (verifyLogin [sampleActive] "c@x.com" "111111" 9).db = some v
            ∧ v.login_records = sampleActive.login_records ++ [⟨"login", 9⟩]
            ∧ v.login_records.length = sampleActive.login_records.length + 1
            ∧ v.login_records.take sampleActive.login_records.length =
                sampleActive.login_records))
  ∧ (selectSingle (byEmail "c@x.com") [sampleActive] = some sampleActive
      ∧ ((logout [sampleActive] "c@x.com" 11).resp.status = 200
        ∧ ∃ v, selectSingle (byEmail "c@x.com")
              (logout [sampleActive] "c@x.com" 11).db = some v
            ∧ v.login_records = sampleActive.login_records ++ [⟨"logout", 11⟩]
            ∧ v.login_records.length = sampleActive.login_records.length + 1
            ∧ v.login_records.take sampleActive.login_records.length =
                sampleActive.login_records)) :=
  ⟨⟨by decide,
    (login_records_append_only [sampleActive] "c@x.com" "111111" 9 sampleActive).1
      (by decide)⟩,
   ⟨by decide,
    (login_records_append_only [sampleActive] "c@x.com" "111111" 11 sampleActive).2
      (by decide)⟩⟩

/-- C7 (counterexample): Create (POST /register) performs no email format
validation: registering with the malformed email "not-an-email" succeeds with
status 200, stores an account under that email, and sends it the registration
notification. -/
theorem register_accepts_malformed_email_counterexample :
    (register [] ⟨"Mallory", some "not-an-email", none⟩ 0 "id9").resp.status = 200
  ∧ (register [] ⟨"Mallory", some "not-an-email", none⟩ 0 "id9").db.map User.email =
      ["not-an-email"]
  ∧ (register [] ⟨"Mallory", some "not-an-email", none⟩ 0 "id9").mails =
      [⟨"not-an-email", "Verify Your Registration"⟩] := by
  exact ⟨rfl, rfl, rfl⟩

/-- C7 (amended): Create (POST /register) fails with a 400 error when the email
field is absent — the insert is rejected (NOT NULL constraint) before any
account is stored or notification sent — but no format validation is performed,
so a malformed non-empty email is accepted. -/
theorem register_absent_email_fails (db : Db) (inp : RegisterInput) (r : ℚ)
    (newId : String) (h : inp.email = none) :
    register db inp r newId =
      ⟨⟨400, .err "null value in column email violates not-null constraint"⟩,
        db, []⟩ := by
  unfold register
  rw [h]

theorem register_absent_email_fails_witness :
    (⟨"Noni", none, none⟩ : RegisterInput).email = none
  ∧ register [sampleUnverified] ⟨"Noni", none, none⟩ 0 "id8" =
      ⟨⟨400, .err "null value in column email violates not-null constraint"⟩,
        [sampleUnverified], []⟩ :=
  ⟨rfl, register_absent_email_fails [sampleUnverified] ⟨"Noni", none, none⟩ 0 "id8" rfl⟩

/-- C8: ResendRegistrationOtp (POST /resend-otp) on an account whose
otp_verified flag is already true fails with AlreadyVerified (400 "Email
already verified") and returns the table unchanged, so the stored OTP is not
altered. -/
theorem resendOtp_already_verified_unchanged (db : Db) (e : String) (r : ℚ)
    (ok : Bool) (u : User) (h : selectSingle (byEmail e) db = some u)
    (hv : u.otp_verified = true) :
    resendOtp db (some e) r ok = ⟨⟨400, .err "Email already verified"⟩, db, []⟩ := by
  unfold resendOtp
  simp [h, hv]

theorem resendOtp_already_verified_unchanged_witness :
    selectSingle (byEmail "c@x.com") [sampleActive] = some sampleActive
  ∧ sampleActive.otp_verified = true
  ∧ resendOtp [sampleActive] (some "c@x.com") 0 true =
      ⟨⟨400, .err "Email already verified"⟩, [sampleActive], []⟩ :=
  ⟨by decide, rfl,
    resendOtp_already_verified_unchanged [sampleActive] "c@x.com" 0 true
      sampleActive (by decide) rfl⟩

/-- C9: in the resend-OTP path, a delivery failure that occurs after the fresh
OTP has been persisted is surfaced to the caller as a dedicated error (500
"Failed to send OTP email"), and the already-applied OTP update is not rolled
back: the new OTP remains the stored OTP of the account. -/
theorem resendOtp_send_failure_keeps_new_otp (db : Db) (e : String) (r : ℚ)
    (u : User) (h : selectSingle (byEmail e) db = some u)
    (hv : u.otp_verified = false) :
    resendOtp db (some e) r false =
      ⟨⟨500, .err "Failed to send OTP email"⟩,
        updateByEmail e (fun w => { w with otp := some (genOtp r) }) db, []⟩
  ∧ selectSingle (byEmail e) (resendOtp db (some e) r false).db =
      some { u with otp := some (genOtp r) } := by
  have hue : (u.email == e) = true := pred_of_selectSingle h
  have hg : ∀ w : User, byEmail e { w with otp := some (genOtp r) } = byEmail e w :=
    fun w => rfl
  have h1 : resendOtp db (some e) r false =
      ⟨⟨500, .err "Failed to send OTP email"⟩,
        updateByEmail e (fun w => { w with otp := some (genOtp r) }) db, []⟩ := by
    unfold resendOtp
    simp [h, hv]
  refine ⟨h1, ?_⟩
  rw [h1]
  exact selectSingle_updateByEmail h hg hue

theorem resendOtp_send_failure_keeps_new_otp_witness :
    selectSingle (byEmail "a@x.com") [sampleUnverified] = some sampleUnverified
  ∧ sampleUnverified.otp_verified = false
  ∧ (resendOtp [sampleUnverified] (some "a@x.com") 0 false =
      ⟨⟨500, .err "Failed to send OTP email"⟩,
        updateByEmail "a@x.com" (fun w => { w with otp := some (genOtp 0) })
          [sampleUnverified], []⟩
    ∧ selectSingle (byEmail "a@x.com")
        (resendOtp [sampleUnverified] (some "a@x.com") 0 false).db =
        some { sampleUnverified with otp := some (genOtp 0) }) :=
  ⟨by decide, rfl,
    resendOtp_send_failure_keeps_new_otp [sampleUnverified] "a@x.com" 0
      sampleUnverified (by decide) rfl⟩

/-- C10: every generated OTP (the same generator serves registration, login-OTP
issuance, and resend) is a 6-digit decimal string whose numeric value lies in
100000..999999 inclusive, for every value of the underlying random draw in
[0, 1). -/
theorem generated_otp_six_digit_range (r : ℚ) (h0 : 0 ≤ r) (h1 : r < 1) :
    100000 ≤ genOtpNat r ∧ genOtpNat r ≤ 999999 ∧ (genOtp r).length = 6 := by
  have hlow : (100000 : ℤ) ≤ ⌊(100000 : ℚ) + r * 900000⌋ := by
    apply Int.le_floor.mpr
    push_cast
    nlinarith
  have hhigh : ⌊(100000 : ℚ) + r * 900000⌋ < 1000000 := by
    apply Int.floor_lt.mpr
    push_cast
    nlinarith
  have hnat_low : 100000 ≤ genOtpNat r := by
    unfold genOtpNat
    omega
  have hnat_high : genOtpNat r ≤ 999999 := by
    unfold genOtpNat
    omega
  refine ⟨hnat_low, hnat_high, ?_⟩
  have hn0 : genOtpNat r ≠ 0 := by omega
  have hlog : Nat.log 10 (genOtpNat r) = 5 := by
    apply Nat.log_eq_of_pow_le_of_lt_pow
    · norm_num
      exact hnat_low
    · norm_num
      omega
  have hlen : (Nat.digits 10 (genOtpNat r)).length = 6 := by
    rw [Nat.digits_len 10 _ (by norm_num) hn0, hlog]
  unfold genOtp natDecimalRepr
  rw [if_neg hn0]
  show ((Nat.digits 10 (genOtpNat r)).reverse.map Nat.digitChar).length = 6
  simp [hlen]

theorem generated_otp_six_digit_range_witness :
    (0 : ℚ) ≤ 1 / 2 ∧ (1 / 2 : ℚ) < 1
  ∧ (100000 ≤ genOtpNat (1 / 2) ∧ genOtpNat (1 / 2) ≤ 999999
      ∧ (genOtp (1 / 2)).length = 6) :=
  ⟨by norm_num, by norm_num,
    generated_otp_six_digit_range (1 / 2) (by norm_num) (by norm_num)⟩

end Ekalavya
